import Mathlib

/-!
Verification development for `samcli/lib/utils/resource_trigger.py`:
the resource-to-watch-target resolution hierarchy (`ResourceTrigger`,
`TemplateTrigger`, `CodeResourceTrigger`, `LambdaFunctionCodeTrigger`,
`LambdaZipCodeTrigger`, `LambdaImageCodeTrigger`, `LambdaLayerCodeTrigger`,
`APIGatewayCodeTrigger`) and its change-validation gating.

External collaborators (stack resolution, function/layer providers,
the definition validator, filesystem path resolution, and the watchdog
matching event handlers) are modelled at their boundary, following the
spec's description of those interfaces.
-/

namespace Samcli

/-- A filesystem event delivered by the external observer.  Only the fields the
match rules consult are modelled: the event's source path and whether the
event's subject is a directory. -/
structure Event where
  src_path : String
  is_directory : Bool
deriving DecidableEq, Repr

/-- An opaque reference to an `OnChangeCallback` value supplied by the caller.
Invocation is modelled by call traces: lists of (callback, event) pairs. -/
structure OnChangeCallback where
  ref : Nat
deriving DecidableEq, Repr

/-- The external `DefinitionValidator` collaborator
(`samcli.lib.utils.definition_validator`, outside this module), modelled by the
path it is bound to.  Its stateful `validate()` result is passed explicitly
wherever the wrapper code that calls it is modelled. -/
structure DefinitionValidator where
  path : String
deriving DecidableEq, Repr

/-- A callable installed on a path handler slot: either the caller's raw
callback, or one of the two validator-wrapper bound methods defined in
`resource_trigger.py` (`TemplateTrigger._validator_wrapper` and
`APIGatewayCodeTrigger._validator_wrapper`). -/
inductive BoundCallback where
  | raw (cb : OnChangeCallback)
  | templateValidatorWrapper (validator : DefinitionValidator) (cb : OnChangeCallback)
  | apiValidatorWrapper (validator : DefinitionValidator) (cb : OnChangeCallback)
deriving DecidableEq, Repr

/-- Trace semantics of invoking a `BoundCallback` on an event.  Both
validator wrappers are the source line
`if self._validator.validate(): callback(event)`; `validateResult` is the value
the external stateful validator returns on this particular call.  The result
lists the (callback, event) invocations of the original callback performed by
the call; no error is ever raised (the function is total). -/
def BoundCallback.invoke (validateResult : Bool) (b : BoundCallback) (event : Option Event) :
    List (OnChangeCallback × Option Event) :=
  match b with
  | .raw cb => [(cb, event)]
  | .templateValidatorWrapper _ cb => if validateResult then [(cb, event)] else []
  | .apiValidatorWrapper _ cb => if validateResult then [(cb, event)] else []

/-- The characters Python's `re.escape` (3.7+) prefixes with a backslash. -/
def reSpecialChars : List Char :=
  ['(', ')', '[', ']', '{', '}', '?', '*', '+', '-', '|', '^', '$', '\\', '.',
   '&', '~', '#', ' ', '\t', '\n', '\r', '\x0b', '\x0c']

/-- `re.escape` on a single character. -/
def reEscapeChar (c : Char) : List Char :=
  if reSpecialChars.contains c then ['\\', c] else [c]

/-- `re.escape` on a character list. -/
def reEscapeList : List Char → List Char
  | [] => []
  | c :: rest => reEscapeChar c ++ reEscapeList rest

/-- Python's `re.escape`: escape every pattern-special character of the
argument so the result matches the argument literally. -/
def reEscape (s : String) : String :=
  ⟨reEscapeList s.data⟩

/-- Modelled from the spec: the external regex engine (Python `re`, used by the
watchdog `RegexMatchingEventHandler`), restricted to the pattern language this
module generates — backslash-escaped or literal characters with an optional
trailing end anchor.  The pattern is matched anchored at the start (`re.match`);
an exhausted pattern accepts whatever input remains. -/
def reMatchCore (pat s : List Char) : Bool :=
  match pat with
  | [] => true
  | c :: pr =>
    if c == '$' then s.isEmpty
    else if c == '\\' then
      match pr, s with
      | e :: pr2, d :: sr => e == d && reMatchCore pr2 sr
      | _, _ => false
    else
      match s with
      | d :: sr => c == d && reMatchCore pr sr
      | [] => false

/-- `re.match` of a pattern against a path: a leading caret is the explicit
start anchor; matching is anchored at the start either way. -/
def reMatchData (pat s : List Char) : Bool :=
  match pat with
  | [] => reMatchCore [] s
  | c :: rest => if c == '^' then reMatchCore rest s else reMatchCore (c :: rest) s

/-- `re.match` on strings. -/
def reMatch (pattern path : String) : Bool :=
  reMatchData pattern.data path.data

/-- Modelled from the spec: the external shell-style pattern matcher
(`fnmatch`, used by the watchdog `PatternMatchingEventHandler`), restricted to
literal characters and the any-sequence wildcard — the only features of the
patterns this module generates. -/
def fnmatchChars (pat s : List Char) : Bool :=
  match pat with
  | [] => s.isEmpty
  | c :: pr =>
    if c == '*' then
      match s with
      | [] => fnmatchChars pr []
      | _ :: sr => fnmatchChars pr s || fnmatchChars (c :: pr) sr
    else
      match s with
      | [] => false
      | d :: sr => c == d && fnmatchChars pr sr
termination_by (pat.length, s.length)

/-- An event-filtering rule of a matching event handler: a list of regexes
(`RegexMatchingEventHandler`) or a list of shell patterns
(`PatternMatchingEventHandler`). -/
inductive MatchRule where
  | regexes (rs : List String)
  | patterns (ps : List String)
deriving DecidableEq, Repr

/-- Whether a match rule accepts a path.  A case-insensitive handler
(`case_sensitive = false`) folds both sides to lower case; both handlers this
module builds are case-sensitive. -/
def MatchRule.matchesPath (r : MatchRule) (case_sensitive : Bool) (path : String) : Bool :=
  match r with
  | .regexes rs =>
    rs.any fun pat =>
      reMatch (if case_sensitive then pat else pat.toLower)
        (if case_sensitive then path else path.toLower)
  | .patterns ps =>
    ps.any fun pat =>
      fnmatchChars (if case_sensitive then pat else pat.toLower).data
        (if case_sensitive then path else path.toLower).data

/-- Modelled from the spec: the watchdog matching event handler collaborator
(`RegexMatchingEventHandler` / `PatternMatchingEventHandler`): its constructor
arguments together with the mutable `on_any_event` slot that this module
assigns after construction. -/
structure EventHandler where
  rule : MatchRule
  ignore_rule : MatchRule
  ignore_directories : Bool
  case_sensitive : Bool
  on_any_event : Option BoundCallback
deriving DecidableEq, Repr

/-- Event dispatch of the external matching handler: a directory event is
dropped when `ignore_directories` is set; otherwise the ignore rule and then
the match rule are consulted on the event's source path. -/
def EventHandler.dispatches (h : EventHandler) (event : Event) : Bool :=
  if h.ignore_directories && event.is_directory then false
  else if h.ignore_rule.matchesPath h.case_sensitive event.src_path then false
  else h.rule.matchesPath h.case_sensitive event.src_path

/-- Modelled from the spec: the `PathHandler` record
(`samcli.lib.utils.path_observer`, outside this module) — the spec's
`WatchTarget`: the watched path, the matching event handler, the recursive
flag, the static-folder flag, and the optional self-create / self-delete
callbacks consumed by the external observer. -/
structure PathHandler where
  path : String
  event_handler : EventHandler
  recursive : Bool
  static_folder : Bool
  self_create : Option BoundCallback
  self_delete : Option BoundCallback
deriving DecidableEq, Repr

/-- Modelled from the spec: filesystem path resolution (`Path.resolve` and
`Path.parent`): produce an absolute, normalized form of a path string and the
containing directory of a path. -/
structure PathResolver where
  resolve : String → String
  parent : String → String

/-- `ResourceTrigger.get_single_file_path_handler`: resolve the file path,
build a regex handler whose single regex is the caret-anchored, escaped,
dollar-anchored resolved path, ignoring directory events, case-sensitively,
and watch the parent directory non-recursively. -/
def ResourceTrigger.get_single_file_path_handler (R : PathResolver)
    (file_path_str : String) : PathHandler :=
  let file_path := R.resolve file_path_str
  let folder_path := R.parent file_path
  let file_handler : EventHandler :=
    { rule := .regexes ["^" ++ reEscape file_path ++ "$"]
      ignore_rule := .regexes []
      ignore_directories := true
      case_sensitive := true
      on_any_event := none }
  { path := folder_path
    event_handler := file_handler
    recursive := false
    static_folder := false
    self_create := none
    self_delete := none }

/-- `ResourceTrigger.get_dir_path_handler`: resolve the directory path, build a
pattern handler matching everything, not ignoring directory events,
case-sensitively, and watch the resolved directory recursively as a static
folder. -/
def ResourceTrigger.get_dir_path_handler (R : PathResolver)
    (dir_path_str : String) : PathHandler :=
  let dir_path := R.resolve dir_path_str
  let file_handler : EventHandler :=
    { rule := .patterns ["*"]
      ignore_rule := .patterns []
      ignore_directories := false
      case_sensitive := true
      on_any_event := none }
  { path := dir_path
    event_handler := file_handler
    recursive := true
    static_folder := true
    self_create := none
    self_delete := none }

/-- A value inside a resource record's mapping (Python `Any`): only string and
nested-mapping values are ever consulted by this module. -/
inductive PropVal where
  | str (s : String)
  | dict (entries : List (String × PropVal))

/-- A resource record: a string-keyed mapping (`Dict[str, Any]`). -/
abbrev Resource := List (String × PropVal)

/-- A stack.  Its contents are owned by the external providers, which are
modelled as opaque lookup functions (`Providers`), so only a name is carried
here. -/
structure Stack where
  name : String
deriving DecidableEq, Repr

/-- An opaque key identifying a resource within the stack_list; equality is by its
composite string form, so it is modelled as that string (`str(identifier)` is
the identity). -/
abbrev ResourceIdentifier := String

/-- The resolved function view (`samcli.lib.providers.provider.Function`):
the fields this module consults.  `metadata` is a string-keyed mapping; the
build-context entry is read from it with key `DockerContext`. -/
structure Function where
  codeuri : Option String
  metadata : Option (List (String × String))
deriving DecidableEq, Repr

/-- The resolved layer view (`samcli.lib.providers.provider.LayerVersion`):
the field this module consults. -/
structure LayerVersion where
  codeuri : Option String
deriving DecidableEq, Repr

/-- Modelled from the spec: the external stack-resolution collaborators —
`get_resource_by_id`, `SamFunctionProvider(stack_list).get`, and
`SamLayerProvider(stack_list).get` — as opaque lookup functions over the supplied
stack list. -/
structure Providers where
  get_resource_by_id : List Stack → ResourceIdentifier → Option Resource
  function_provider_get : List Stack → String → Option Function
  layer_provider_get : List Stack → String → Option LayerVersion

/-- Python `dict.get(key, None)` on a string-keyed association list. -/
def dictGet {α : Type} (d : List (String × α)) (key : String) : Option α :=
  match d with
  | [] => none
  | (k, v) :: rest => if k == key then some v else dictGet rest key

/-- Python truthiness test `not x` for an `Optional[str]`: `None` and the
empty string are falsy. -/
def pyFalsyStr (s : Option String) : Bool :=
  match s with
  | none => true
  | some v => v.isEmpty

/-- Python truthiness test `not x` for an optional mapping: `None` and the
empty mapping are falsy. -/
def pyFalsyDict {α : Type} (d : Option (List (String × α))) : Bool :=
  match d with
  | none => true
  | some entries => entries.isEmpty

/-- The exceptions raised by trigger construction
(`ResourceNotFound`, `FunctionNotFound` from
`samcli.local.lambdafn.exceptions`; `MissingCodeUri`, `MissingDefinitionUri`
from `samcli.lib.providers.exceptions`). -/
inductive TriggerError where
  | resourceNotFound
  | functionNotFound
  | missingCodeUri
  | missingDefinitionUri
deriving DecidableEq, Repr

/-- `TemplateTrigger` state: the template file, the stored callback, and the
definition validator bound to the template file. -/
structure TemplateTrigger where
  _template_file : String
  _on_template_change : OnChangeCallback
  _validator : DefinitionValidator
deriving DecidableEq, Repr

/-- `TemplateTrigger.__init__`: store the file and callback and build a
`DefinitionValidator` over the template file's path. -/
def TemplateTrigger.init (template_file : String)
    (on_template_change : OnChangeCallback) : TemplateTrigger :=
  { _template_file := template_file
    _on_template_change := on_template_change
    _validator := { path := template_file } }

/-- `TemplateTrigger.get_path_handlers`: one single-file handler for the
template file whose `on_any_event` is the bound `_validator_wrapper` method. -/
def TemplateTrigger.get_path_handlers (R : PathResolver)
    (t : TemplateTrigger) : List PathHandler :=
  let fp := ResourceTrigger.get_single_file_path_handler R t._template_file
  [{ fp with
      event_handler :=
        { fp.event_handler with
          on_any_event :=
            some (.templateValidatorWrapper t._validator t._on_template_change) } }]

/-- `CodeResourceTrigger` state after a successful construction: the resolved
resource record and the stored callback. -/
structure CodeResourceTrigger where
  _resource : Resource
  _on_code_change : OnChangeCallback

/-- `CodeResourceTrigger.__init__`: look the resource up through the external
collaborator; `if not resource` (absent, or a falsy empty mapping) raise
`ResourceNotFound` before any state is stored. -/
def CodeResourceTrigger.init (P : Providers)
    (resource_identifier : ResourceIdentifier) (stack_list : List Stack)
    (on_code_change : OnChangeCallback) :
    Except TriggerError CodeResourceTrigger :=
  match P.get_resource_by_id stack_list resource_identifier with
  | none => .error .resourceNotFound
  | some resource =>
    if resource.isEmpty then .error .resourceNotFound
    else .ok { _resource := resource, _on_code_change := on_code_change }

/-- `LambdaFunctionCodeTrigger` state after a successful construction. -/
structure LambdaFunctionCodeTrigger extends CodeResourceTrigger where
  _function : Function
  _code_uri : String

/-- `LambdaFunctionCodeTrigger.__init__`, parametrized by the subclass
strategy `_get_code_uri` (dynamic dispatch in the source): base resolution,
then the function-provider lookup (`FunctionNotFound` if absent), then the
strategy (`MissingCodeUri` if its result is falsy — absent or empty). -/
def LambdaFunctionCodeTrigger.init (P : Providers)
    (get_code_uri : Function → Option String)
    (function_identifier : ResourceIdentifier) (stack_list : List Stack)
    (on_code_change : OnChangeCallback) :
    Except TriggerError LambdaFunctionCodeTrigger :=
  match CodeResourceTrigger.init P function_identifier stack_list on_code_change with
  | .error e => .error e
  | .ok base =>
    match P.function_provider_get stack_list function_identifier with
    | none => .error .functionNotFound
    | some f =>
      match get_code_uri f with
      | none => .error .missingCodeUri
      | some code_uri =>
        if code_uri.isEmpty then .error .missingCodeUri
        else .ok { toCodeResourceTrigger := base, _function := f, _code_uri := code_uri }

/-- `LambdaZipCodeTrigger._get_code_uri`: the function's `codeuri` field,
verbatim. -/
def LambdaZipCodeTrigger._get_code_uri (f : Function) : Option String :=
  f.codeuri

/-- `LambdaImageCodeTrigger._get_code_uri`: absent when the function's
metadata is falsy (absent or empty); otherwise
`metadata.get("DockerContext", None)`. -/
def LambdaImageCodeTrigger._get_code_uri (f : Function) : Option String :=
  match f.metadata with
  | none => none
  | some m => if m.isEmpty then none else dictGet m "DockerContext"

/-- `LambdaZipCodeTrigger` construction: the inherited
`LambdaFunctionCodeTrigger.__init__` with the zip strategy. -/
def LambdaZipCodeTrigger.init (P : Providers)
    (function_identifier : ResourceIdentifier) (stack_list : List Stack)
    (on_code_change : OnChangeCallback) :
    Except TriggerError LambdaFunctionCodeTrigger :=
  LambdaFunctionCodeTrigger.init P LambdaZipCodeTrigger._get_code_uri
    function_identifier stack_list on_code_change

/-- `LambdaImageCodeTrigger` construction: the inherited
`LambdaFunctionCodeTrigger.__init__` with the image strategy. -/
def LambdaImageCodeTrigger.init (P : Providers)
    (function_identifier : ResourceIdentifier) (stack_list : List Stack)
    (on_code_change : OnChangeCallback) :
    Except TriggerError LambdaFunctionCodeTrigger :=
  LambdaFunctionCodeTrigger.init P LambdaImageCodeTrigger._get_code_uri
    function_identifier stack_list on_code_change

/-- `LambdaFunctionCodeTrigger.get_path_handlers`: one recursive directory
handler over the code uri; `self_create`, `self_delete` and `on_any_event` are
all assigned the raw stored callback. -/
def LambdaFunctionCodeTrigger.get_path_handlers (R : PathResolver)
    (t : LambdaFunctionCodeTrigger) : List PathHandler :=
  let dp := ResourceTrigger.get_dir_path_handler R t._code_uri
  [{ dp with
      self_create := some (.raw t._on_code_change)
      self_delete := some (.raw t._on_code_change)
      event_handler := { dp.event_handler with on_any_event := some (.raw t._on_code_change) } }]

/-- `LambdaLayerCodeTrigger` state after a successful construction. -/
structure LambdaLayerCodeTrigger extends CodeResourceTrigger where
  _layer : LayerVersion
  _code_uri : String

/-- `LambdaLayerCodeTrigger.__init__`: base resolution, then the
layer-provider lookup (the generic `ResourceNotFound` if absent), then the
layer's `codeuri` (`MissingCodeUri` if falsy — absent or empty). -/
def LambdaLayerCodeTrigger.init (P : Providers)
    (layer_identifier : ResourceIdentifier) (stack_list : List Stack)
    (on_code_change : OnChangeCallback) :
    Except TriggerError LambdaLayerCodeTrigger :=
  match CodeResourceTrigger.init P layer_identifier stack_list on_code_change with
  | .error e => .error e
  | .ok base =>
    match P.layer_provider_get stack_list layer_identifier with
    | none => .error .resourceNotFound
    | some layer =>
      match layer.codeuri with
      | none => .error .missingCodeUri
      | some code_uri =>
        if code_uri.isEmpty then .error .missingCodeUri
        else .ok { toCodeResourceTrigger := base, _layer := layer, _code_uri := code_uri }

/-- `LambdaLayerCodeTrigger.get_path_handlers`: one recursive directory
handler over the code uri; `self_create`, `self_delete` and `on_any_event` are
all assigned the raw stored callback. -/
def LambdaLayerCodeTrigger.get_path_handlers (R : PathResolver)
    (t : LambdaLayerCodeTrigger) : List PathHandler :=
  let dp := ResourceTrigger.get_dir_path_handler R t._code_uri
  [{ dp with
      self_create := some (.raw t._on_code_change)
      self_delete := some (.raw t._on_code_change)
      event_handler := { dp.event_handler with on_any_event := some (.raw t._on_code_change) } }]

/-- The source line reading
`self._resource.get("Properties", emptyDict).get("DefinitionUri", None)`,
restricted to string-valued `DefinitionUri` entries. -/
def getDefinitionUri (r : Resource) : Option String :=
  match dictGet r "Properties" with
  | some (.dict props) =>
    match dictGet props "DefinitionUri" with
    | some (.str s) => some s
    | _ => none
  | _ => none

/-- `APIGatewayCodeTrigger` state after a successful construction. -/
structure APIGatewayCodeTrigger extends CodeResourceTrigger where
  _validator : DefinitionValidator
  _definition_file : String

/-- `APIGatewayCodeTrigger.__init__`: base resolution, then the
definition-file path from the `DefinitionUri` key nested inside the resource's
`Properties` block (an absent `Properties` block defaults to an empty mapping,
so the read itself cannot fail); `MissingDefinitionUri` if the value is falsy
— absent or empty.  On success a `DefinitionValidator` is bound to the path. -/
def APIGatewayCodeTrigger.init (P : Providers)
    (rest_api_identifier : ResourceIdentifier) (stack_list : List Stack)
    (on_code_change : OnChangeCallback) :
    Except TriggerError APIGatewayCodeTrigger :=
  match CodeResourceTrigger.init P rest_api_identifier stack_list on_code_change with
  | .error e => .error e
  | .ok base =>
    match getDefinitionUri base._resource with
    | none => .error .missingDefinitionUri
    | some definition_file =>
      if definition_file.isEmpty then .error .missingDefinitionUri
      else
        .ok { toCodeResourceTrigger := base
              _validator := { path := definition_file }
              _definition_file := definition_file }

/-- `APIGatewayCodeTrigger.get_path_handlers`: one single-file handler for the
definition file whose `on_any_event` is the bound `_validator_wrapper`
method. -/
def APIGatewayCodeTrigger.get_path_handlers (R : PathResolver)
    (a : APIGatewayCodeTrigger) : List PathHandler :=
  let fp := ResourceTrigger.get_single_file_path_handler R a._definition_file
  [{ fp with
      event_handler :=
        { fp.event_handler with
          on_any_event := some (.apiValidatorWrapper a._validator a._on_code_change) } }]

/-- Unfolding: a pattern starting with a backslash-escaped character consumes
exactly that character of the input. -/
theorem reMatchCore_backslash_cons (c : Char) (pr : List Char) (d : Char)
    (sr : List Char) :
    reMatchCore ('\\' :: c :: pr) (d :: sr) = (c == d && reMatchCore pr sr) := by
  rw [reMatchCore.eq_def]
  dsimp only
  simp

/-- Unfolding: a pattern starting with a backslash-escaped character rejects
the empty input. -/
theorem reMatchCore_backslash_nil (c : Char) (pr : List Char) :
    reMatchCore ('\\' :: c :: pr) [] = false := by
  rw [reMatchCore.eq_def]
  dsimp only
  simp

/-- Unfolding: the end-anchor pattern accepts exactly the empty input. -/
theorem reMatchCore_dollar (s : List Char) :
    reMatchCore ['$'] s = s.isEmpty := by
  rw [reMatchCore.eq_def]
  dsimp only
  simp

/-- Unfolding: a pattern starting with a plain, non-special character consumes
exactly that character of the input. -/
theorem reMatchCore_plain_cons (c : Char) (pr : List Char) (d : Char)
    (sr : List Char) (h1 : (c == '$') = false) (h2 : (c == '\\') = false) :
    reMatchCore (c :: pr) (d :: sr) = (c == d && reMatchCore pr sr) := by
  rw [reMatchCore.eq_def]
  dsimp only
  rw [h1, h2]
  simp

/-- Unfolding: a pattern starting with a plain, non-special character rejects
the empty input. -/
theorem reMatchCore_plain_nil (c : Char) (pr : List Char)
    (h1 : (c == '$') = false) (h2 : (c == '\\') = false) :
    reMatchCore (c :: pr) [] = false := by
  rw [reMatchCore.eq_def]
  dsimp only
  rw [h1, h2]
  simp

/-- The escaped body of the generated regex, followed by the end anchor,
accepts exactly the literal it was built from. -/
theorem reMatchCore_escape (cs ds : List Char) :
    reMatchCore (reEscapeList cs ++ ['$']) ds = true ↔ ds = cs := by
  induction cs generalizing ds with
  | nil =>
    cases ds with
    | nil => simp [reEscapeList, reMatchCore_dollar]
    | cons d dr => simp [reEscapeList, reMatchCore_dollar]
  | cons c cr ih =>
    by_cases hc : reSpecialChars.contains c = true
    · have h : reEscapeChar c = ['\\', c] := by
        unfold reEscapeChar
        rw [if_pos hc]
      cases ds with
      | nil =>
        rw [show reEscapeList (c :: cr) = reEscapeChar c ++ reEscapeList cr from rfl, h]
        simp only [List.cons_append, List.nil_append, List.append_assoc]
        simp [reMatchCore_backslash_nil]
      | cons d dr =>
        rw [show reEscapeList (c :: cr) = reEscapeChar c ++ reEscapeList cr from rfl, h]
        simp only [List.cons_append, List.nil_append, List.append_assoc]
        rw [reMatchCore_backslash_cons]
        rw [Bool.and_eq_true, beq_iff_eq, ih, List.cons.injEq]
        constructor
        · rintro ⟨rfl, rfl⟩; exact ⟨rfl, rfl⟩
        · rintro ⟨rfl, rfl⟩; exact ⟨rfl, rfl⟩
    · have h : reEscapeChar c = [c] := by
        unfold reEscapeChar
        rw [if_neg hc]
      have h1 : (c == '$') = false := by
        refine beq_eq_false_iff_ne.mpr ?_
        intro hcc; subst hcc; exact hc (by decide)
      have h2 : (c == '\\') = false := by
        refine beq_eq_false_iff_ne.mpr ?_
        intro hcc; subst hcc; exact hc (by decide)
      cases ds with
      | nil =>
        rw [show reEscapeList (c :: cr) = reEscapeChar c ++ reEscapeList cr from rfl, h]
        simp only [List.cons_append, List.nil_append, List.append_assoc]
        simp [reMatchCore_plain_nil _ _ h1 h2]
      | cons d dr =>
        rw [show reEscapeList (c :: cr) = reEscapeChar c ++ reEscapeList cr from rfl, h]
        simp only [List.cons_append, List.nil_append, List.append_assoc]
        rw [reMatchCore_plain_cons _ _ _ _ h1 h2]
        rw [Bool.and_eq_true, beq_iff_eq, ih, List.cons.injEq]
        constructor
        · rintro ⟨rfl, rfl⟩; exact ⟨rfl, rfl⟩
        · rintro ⟨rfl, rfl⟩; exact ⟨rfl, rfl⟩

/-- The generated single-file regex — caret, escaped literal, dollar —
accepts exactly the literal it was built from. -/
theorem reMatch_escape (lit p : String) :
    reMatch ("^" ++ reEscape lit ++ "$") p = true ↔ p = lit := by
  have hdata : ("^" ++ reEscape lit ++ "$").data
      = '^' :: (reEscapeList lit.data ++ ['$']) := by
    rw [String.data_append, String.data_append]
    have h1 : ("^" : String).data = ['^'] := by decide
    have h2 : ("$" : String).data = ['$'] := by decide
    have h3 : (reEscape lit).data = reEscapeList lit.data := rfl
    rw [h1, h2, h3]
    simp
  rw [reMatch, hdata, reMatchData]
  simp only [if_pos (by decide : ('^' == '^') = true)]
  rw [reMatchCore_escape]
  exact ⟨fun h => String.ext_iff.mpr h, fun h => String.ext_iff.mp h⟩

/-- The any-sequence wildcard pattern accepts every input. -/
theorem fnmatchChars_star (s : List Char) : fnmatchChars ['*'] s = true := by
  induction s with
  | nil => simp [fnmatchChars]
  | cons d dr ih => simp [fnmatchChars, ih]

/-- The match rule of the single-file handler, evaluated with the handler's
own case-sensitivity flag, accepts exactly the resolved absolute path. -/
theorem single_file_rule_exact (R : PathResolver) (file_path_str p : String) :
    ((ResourceTrigger.get_single_file_path_handler R file_path_str).event_handler.rule.matchesPath
        (ResourceTrigger.get_single_file_path_handler R file_path_str).event_handler.case_sensitive
        p = true)
      ↔ p = R.resolve file_path_str := by
  simp only [ResourceTrigger.get_single_file_path_handler, MatchRule.matchesPath]
  simp only [List.any_cons, List.any_nil, Bool.or_false, if_pos rfl]
  simpa using reMatch_escape (R.resolve file_path_str) p

/-- The match rule of the directory handler, evaluated with the handler's own
case-sensitivity flag, accepts every path. -/
theorem dir_rule_matches_all (R : PathResolver) (dir_path_str p : String) :
    (ResourceTrigger.get_dir_path_handler R dir_path_str).event_handler.rule.matchesPath
        (ResourceTrigger.get_dir_path_handler R dir_path_str).event_handler.case_sensitive
        p = true := by
  have h : ("*" : String).data = ['*'] := by decide
  simp [ResourceTrigger.get_dir_path_handler, MatchRule.matchesPath, h,
    fnmatchChars_star]

/-- C3: for every file path string, the single-file factory returns a watch
target whose watched path is the parent directory of the resolved absolute
file path, whose recursive flag is false, and whose match rule — evaluated
with the handler's own case-sensitivity — matches exactly the resolved
absolute path and no other path whatsoever (so in particular none differing by
a single character), for arbitrary paths including ones containing
pattern/regex-special characters, which `reEscape` escapes. -/
theorem single_file_handler_spec (R : PathResolver) (file_path_str : String) :
    (ResourceTrigger.get_single_file_path_handler R file_path_str).path
        = R.parent (R.resolve file_path_str) ∧
    (ResourceTrigger.get_single_file_path_handler R file_path_str).recursive = false ∧
    ∀ p : String,
      ((ResourceTrigger.get_single_file_path_handler R file_path_str).event_handler.rule.matchesPath
          (ResourceTrigger.get_single_file_path_handler R file_path_str).event_handler.case_sensitive
          p = true)
        ↔ p = R.resolve file_path_str :=
  ⟨rfl, rfl, fun p => single_file_rule_exact R file_path_str p⟩

/-- C4: for every directory path string, the directory factory returns a watch
target whose watched path is the resolved absolute directory, whose recursive
flag is true, whose static-folder flag is true, and whose match rule —
evaluated with the handler's own case-sensitivity — matches every path,
relative or absolute, hence in particular any path within that directory
tree. -/
theorem dir_handler_spec (R : PathResolver) (dir_path_str : String) :
    (ResourceTrigger.get_dir_path_handler R dir_path_str).path = R.resolve dir_path_str ∧
    (ResourceTrigger.get_dir_path_handler R dir_path_str).recursive = true ∧
    (ResourceTrigger.get_dir_path_handler R dir_path_str).static_folder = true ∧
    ∀ p : String,
      (ResourceTrigger.get_dir_path_handler R dir_path_str).event_handler.rule.matchesPath
        (ResourceTrigger.get_dir_path_handler R dir_path_str).event_handler.case_sensitive
        p = true :=
  ⟨rfl, rfl, rfl, fun p => dir_rule_matches_all R dir_path_str p⟩

/-- C2: for every `TemplateTrigger` and every `APIGatewayCodeTrigger`, the
on-event callable installed on the single returned watch target is the
corresponding bound validator wrapper; invoking that wrapper when the
validator returns false produces no invocation of the original callback (and
raises nothing, the invocation function being total), and invoking it when the
validator returns true produces exactly one invocation of the original
callback with the same event object. -/
theorem validator_wrapper_gating (R : PathResolver) (t : TemplateTrigger)
    (a : APIGatewayCodeTrigger) (e : Option Event) :
    ((TemplateTrigger.get_path_handlers R t).map (fun ph => ph.event_handler.on_any_event)
      = [some (.templateValidatorWrapper t._validator t._on_template_change)]) ∧
    BoundCallback.invoke false
      (.templateValidatorWrapper t._validator t._on_template_change) e = [] ∧
    BoundCallback.invoke true
      (.templateValidatorWrapper t._validator t._on_template_change) e
      = [(t._on_template_change, e)] ∧
    ((APIGatewayCodeTrigger.get_path_handlers R a).map (fun ph => ph.event_handler.on_any_event)
      = [some (.apiValidatorWrapper a._validator a._on_code_change)]) ∧
    BoundCallback.invoke false
      (.apiValidatorWrapper a._validator a._on_code_change) e = [] ∧
    BoundCallback.invoke true
      (.apiValidatorWrapper a._validator a._on_code_change) e
      = [(a._on_code_change, e)] :=
  ⟨rfl, rfl, rfl, rfl, rfl, rfl⟩

/-- C6: for every constructed `LambdaFunctionCodeTrigger` subtype value and
every `LambdaLayerCodeTrigger` value, the single directory target returned by
`get_path_handlers` has its on-event, self-create and self-delete slots all
bound to the raw stored callback — the very reference supplied at
construction, with no wrapper interposed. -/
theorem code_trigger_callbacks_unwrapped (R : PathResolver)
    (f : LambdaFunctionCodeTrigger) (l : LambdaLayerCodeTrigger) :
    ((LambdaFunctionCodeTrigger.get_path_handlers R f).map
        (fun ph => (ph.event_handler.on_any_event, ph.self_create, ph.self_delete))
      = [(some (.raw f._on_code_change), some (.raw f._on_code_change),
          some (.raw f._on_code_change))]) ∧
    ((LambdaLayerCodeTrigger.get_path_handlers R l).map
        (fun ph => (ph.event_handler.on_any_event, ph.self_create, ph.self_delete))
      = [(some (.raw l._on_code_change), some (.raw l._on_code_change),
          some (.raw l._on_code_change))]) :=
  ⟨rfl, rfl⟩

/-- C9: every concrete trigger's `get_path_handlers` returns exactly one watch
target (never an empty sequence), and that target's recursive flag is true for
the directory-based triggers (function and layer code triggers, the zip and
image subtypes sharing the inherited implementation) and false for the
single-file-based triggers (template and API triggers). -/
theorem resolve_singleton_and_recursive_flags (R : PathResolver)
    (t : TemplateTrigger) (f : LambdaFunctionCodeTrigger)
    (l : LambdaLayerCodeTrigger) (a : APIGatewayCodeTrigger) :
    ((TemplateTrigger.get_path_handlers R t).map (fun ph => ph.recursive) = [false]) ∧
    ((LambdaFunctionCodeTrigger.get_path_handlers R f).map (fun ph => ph.recursive) = [true]) ∧
    ((LambdaLayerCodeTrigger.get_path_handlers R l).map (fun ph => ph.recursive) = [true]) ∧
    ((APIGatewayCodeTrigger.get_path_handlers R a).map (fun ph => ph.recursive) = [false]) :=
  ⟨rfl, rfl, rfl, rfl⟩

/-- C1: for every provider set, resource identifier, stack list and callback:
when the generic resource lookup returns nothing (or a falsy empty record),
constructing any `CodeResourceTrigger` subtype fails with `ResourceNotFound`;
and when the base lookup succeeds but the function-provider lookup returns
nothing, constructing either `LambdaFunctionCodeTrigger` subtype fails with
`FunctionNotFound`.  In both failure cases the result is a bare error value:
no resource record, function view or code uri is stored. -/
theorem construction_lookup_failures (P : Providers) (rid : ResourceIdentifier)
    (stack_list : List Stack) (cb : OnChangeCallback) :
    (P.get_resource_by_id stack_list rid = none →
      CodeResourceTrigger.init P rid stack_list cb = .error .resourceNotFound ∧
      LambdaZipCodeTrigger.init P rid stack_list cb = .error .resourceNotFound ∧
      LambdaImageCodeTrigger.init P rid stack_list cb = .error .resourceNotFound ∧
      LambdaLayerCodeTrigger.init P rid stack_list cb = .error .resourceNotFound ∧
      APIGatewayCodeTrigger.init P rid stack_list cb = .error .resourceNotFound) ∧
    (∀ r : Resource, P.get_resource_by_id stack_list rid = some r →
      r.isEmpty = false →
      P.function_provider_get stack_list rid = none →
      LambdaZipCodeTrigger.init P rid stack_list cb = .error .functionNotFound ∧
      LambdaImageCodeTrigger.init P rid stack_list cb = .error .functionNotFound) := by
  constructor
  · intro h
    refine ⟨?_, ?_, ?_, ?_, ?_⟩ <;>
      simp [CodeResourceTrigger.init, LambdaZipCodeTrigger.init,
        LambdaImageCodeTrigger.init, LambdaFunctionCodeTrigger.init,
        LambdaLayerCodeTrigger.init, APIGatewayCodeTrigger.init, h]
  · intro r h hr hf
    constructor <;>
      simp [CodeResourceTrigger.init, LambdaZipCodeTrigger.init,
        LambdaImageCodeTrigger.init, LambdaFunctionCodeTrigger.init, h, hr, hf]

/-- A provider set whose lookups all fail; used to evaluate the theorems on
explicit inputs. -/
def noneProviders : Providers :=
  { get_resource_by_id := fun _ _ => none
    function_provider_get := fun _ _ => none
    layer_provider_get := fun _ _ => none }

/-- A provider set resolving a resource record but neither a function nor a
layer view; used to evaluate the theorems on explicit inputs. -/
def resourceOnlyProviders : Providers :=
  { get_resource_by_id := fun _ _ => some [("Type", PropVal.str "AWS::Serverless::Function")]
    function_provider_get := fun _ _ => none
    layer_provider_get := fun _ _ => none }

/-- C1 witness: the failure theorem evaluated at explicit inputs. -/
theorem construction_lookup_failures_witness :
    CodeResourceTrigger.init noneProviders "Fn1" [] ⟨0⟩ = .error .resourceNotFound ∧
    LambdaZipCodeTrigger.init resourceOnlyProviders "Fn1" [] ⟨0⟩
      = .error .functionNotFound := by
  constructor
  · exact ((construction_lookup_failures noneProviders "Fn1" [] ⟨0⟩).1 rfl).1
  · exact ((construction_lookup_failures resourceOnlyProviders "Fn1" [] ⟨0⟩).2
      [("Type", PropVal.str "AWS::Serverless::Function")] rfl rfl rfl).1

/-- C5: the zip strategy returns the function's `codeuri` field verbatim; the
image strategy returns nothing when the function's metadata is falsy or lacks
the `DockerContext` key and the `DockerContext` value otherwise; and — when
the base and function lookups succeed — construction of either subtype fails
with `MissingCodeUri` exactly when its strategy's result is falsy (absent or
empty). -/
theorem code_uri_strategy_spec (P : Providers) (rid : ResourceIdentifier)
    (stack_list : List Stack) (cb : OnChangeCallback) (f : Function) :
    (LambdaZipCodeTrigger._get_code_uri f = f.codeuri) ∧
    (pyFalsyDict f.metadata = true → LambdaImageCodeTrigger._get_code_uri f = none) ∧
    (∀ m, f.metadata = some m → dictGet m "DockerContext" = none →
      LambdaImageCodeTrigger._get_code_uri f = none) ∧
    (∀ m v, f.metadata = some m → dictGet m "DockerContext" = some v →
      LambdaImageCodeTrigger._get_code_uri f = some v) ∧
    (∀ r : Resource, P.get_resource_by_id stack_list rid = some r →
      r.isEmpty = false →
      P.function_provider_get stack_list rid = some f →
      ((LambdaZipCodeTrigger.init P rid stack_list cb = .error .missingCodeUri)
          ↔ pyFalsyStr (LambdaZipCodeTrigger._get_code_uri f) = true) ∧
      ((LambdaImageCodeTrigger.init P rid stack_list cb = .error .missingCodeUri)
          ↔ pyFalsyStr (LambdaImageCodeTrigger._get_code_uri f) = true)) := by
  refine ⟨rfl, ?_, ?_, ?_, ?_⟩
  · intro hm
    rcases hmeta : f.metadata with _ | m
    · simp [LambdaImageCodeTrigger._get_code_uri, hmeta]
    · rw [hmeta] at hm
      simp only [pyFalsyDict] at hm
      simp [LambdaImageCodeTrigger._get_code_uri, hmeta, hm]
  · intro m hm hd
    simp [LambdaImageCodeTrigger._get_code_uri, hm, hd]
  · intro m v hm hd
    have hne : m.isEmpty = false := by
      cases m with
      | nil => simp [dictGet] at hd
      | cons a rest => rfl
    simp [LambdaImageCodeTrigger._get_code_uri, hm, hne, hd]
  · intro r h hr hf
    constructor
    · rcases hcu : LambdaZipCodeTrigger._get_code_uri f with _ | s
      · simp [LambdaZipCodeTrigger.init, LambdaFunctionCodeTrigger.init,
          CodeResourceTrigger.init, h, hr, hf, hcu, pyFalsyStr]
      · by_cases hs : s.isEmpty = true
        · simp [LambdaZipCodeTrigger.init, LambdaFunctionCodeTrigger.init,
            CodeResourceTrigger.init, h, hr, hf, hcu, hs, pyFalsyStr]
        · simp [LambdaZipCodeTrigger.init, LambdaFunctionCodeTrigger.init,
            CodeResourceTrigger.init, h, hr, hf, hcu, hs, pyFalsyStr]
    · rcases hcu : LambdaImageCodeTrigger._get_code_uri f with _ | s
      · simp [LambdaImageCodeTrigger.init, LambdaFunctionCodeTrigger.init,
          CodeResourceTrigger.init, h, hr, hf, hcu, pyFalsyStr]
      · by_cases hs : s.isEmpty = true
        · simp [LambdaImageCodeTrigger.init, LambdaFunctionCodeTrigger.init,
            CodeResourceTrigger.init, h, hr, hf, hcu, hs, pyFalsyStr]
        · simp [LambdaImageCodeTrigger.init, LambdaFunctionCodeTrigger.init,
            CodeResourceTrigger.init, h, hr, hf, hcu, hs, pyFalsyStr]

/-- A provider set resolving a resource record and a function view that has
neither a code uri nor metadata; used to evaluate the theorems on explicit
inputs. -/
def functionNoUriProviders : Providers :=
  { get_resource_by_id := fun _ _ => some [("Type", PropVal.str "AWS::Serverless::Function")]
    function_provider_get := fun _ _ => some { codeuri := none, metadata := none }
    layer_provider_get := fun _ _ => none }

/-- C5 witness: the strategy theorem evaluated at explicit inputs. -/
theorem code_uri_strategy_spec_witness :
    LambdaImageCodeTrigger._get_code_uri { codeuri := none, metadata := none } = none ∧
    LambdaImageCodeTrigger._get_code_uri
      { codeuri := none, metadata := some [("DockerContext", "app/")] } = some "app/" ∧
    LambdaZipCodeTrigger.init functionNoUriProviders "Fn1" [] ⟨0⟩
      = .error .missingCodeUri ∧
    LambdaImageCodeTrigger.init functionNoUriProviders "Fn1" [] ⟨0⟩
      = .error .missingCodeUri := by
  refine ⟨?_, ?_, ?_, ?_⟩
  · exact (code_uri_strategy_spec noneProviders "Fn1" [] ⟨0⟩ _).2.1 rfl
  · exact (code_uri_strategy_spec noneProviders "Fn1" [] ⟨0⟩ _).2.2.2.1
      [("DockerContext", "app/")] "app/" rfl rfl
  · exact (((code_uri_strategy_spec functionNoUriProviders "Fn1" [] ⟨0⟩
      { codeuri := none, metadata := none }).2.2.2.2
      [("Type", PropVal.str "AWS::Serverless::Function")] rfl rfl rfl).1).mpr rfl
  · exact (((code_uri_strategy_spec functionNoUriProviders "Fn1" [] ⟨0⟩
      { codeuri := none, metadata := none }).2.2.2.2
      [("Type", PropVal.str "AWS::Serverless::Function")] rfl rfl rfl).2).mpr rfl

/-- C7: when the base resolution succeeded, a `LambdaLayerCodeTrigger` whose
layer-provider lookup returns nothing fails with the generic
`ResourceNotFound` (not a layer- or function-specific kind), and one whose
resolved layer has a falsy (absent or empty) `codeuri` fails with
`MissingCodeUri`. -/
theorem layer_trigger_errors (P : Providers) (rid : ResourceIdentifier)
    (stack_list : List Stack) (cb : OnChangeCallback) (r : Resource) :
    P.get_resource_by_id stack_list rid = some r → r.isEmpty = false →
    (P.layer_provider_get stack_list rid = none →
      LambdaLayerCodeTrigger.init P rid stack_list cb = .error .resourceNotFound) ∧
    (∀ layer : LayerVersion, P.layer_provider_get stack_list rid = some layer →
      pyFalsyStr layer.codeuri = true →
      LambdaLayerCodeTrigger.init P rid stack_list cb = .error .missingCodeUri) := by
  intro h hr
  constructor
  · intro hl
    simp [LambdaLayerCodeTrigger.init, CodeResourceTrigger.init, h, hr, hl]
  · intro layer hl hcu
    rcases hc : layer.codeuri with _ | s
    · simp [LambdaLayerCodeTrigger.init, CodeResourceTrigger.init, h, hr, hl, hc]
    · rw [hc] at hcu
      simp only [pyFalsyStr] at hcu
      simp [LambdaLayerCodeTrigger.init, CodeResourceTrigger.init, h, hr, hl, hc, hcu]

/-- A provider set resolving a resource record and a layer view without a code
uri; used to evaluate the theorems on explicit inputs. -/
def layerNoUriProviders : Providers :=
  { get_resource_by_id := fun _ _ => some [("Type", PropVal.str "AWS::Serverless::LayerVersion")]
    function_provider_get := fun _ _ => none
    layer_provider_get := fun _ _ => some { codeuri := none } }

/-- C7 witness: the layer error theorem evaluated at explicit inputs. -/
theorem layer_trigger_errors_witness :
    LambdaLayerCodeTrigger.init resourceOnlyProviders "Layer1" [] ⟨0⟩
      = .error .resourceNotFound ∧
    LambdaLayerCodeTrigger.init layerNoUriProviders "Layer1" [] ⟨0⟩
      = .error .missingCodeUri := by
  constructor
  · exact (layer_trigger_errors resourceOnlyProviders "Layer1" [] ⟨0⟩
      [("Type", PropVal.str "AWS::Serverless::Function")] rfl rfl).1 rfl
  · exact (layer_trigger_errors layerNoUriProviders "Layer1" [] ⟨0⟩
      [("Type", PropVal.str "AWS::Serverless::LayerVersion")] rfl rfl).2
      { codeuri := none } rfl rfl

/-- A provider set whose resolved resource carries a `Properties` block with a
present but empty `DefinitionUri` entry; used to evaluate the theorems on
explicit inputs. -/
def apiEmptyDefinitionProviders : Providers :=
  { get_resource_by_id := fun _ _ =>
      some [("Properties", PropVal.dict [("DefinitionUri", PropVal.str "")])]
    function_provider_get := fun _ _ => none
    layer_provider_get := fun _ _ => none }

/-- C8 counterexample: a resource whose `Properties` block contains a present
`DefinitionUri` entry — the empty string — still makes `APIGatewayCodeTrigger`
construction fail with `MissingDefinitionUri`, so the failure does not happen
exactly when the `DefinitionUri` value is absent: the code tests Python
falsiness, which also rejects a present empty value. -/
theorem api_definition_uri_counterexample :
    dictGet [("DefinitionUri", PropVal.str "")] "DefinitionUri"
      = some (PropVal.str "") ∧
    getDefinitionUri [("Properties", PropVal.dict [("DefinitionUri", PropVal.str "")])]
      = some "" ∧
    APIGatewayCodeTrigger.init apiEmptyDefinitionProviders "Api1" [] ⟨0⟩
      = .error .missingDefinitionUri :=
  ⟨rfl, rfl, rfl⟩

/-- C8 amended: when the base resolution succeeds, `APIGatewayCodeTrigger`
construction reads the definition-file path from the `DefinitionUri` key
nested inside the resource's `Properties` block, the read itself succeeding
(with an absent result) even when the `Properties` block is absent, and fails
with `MissingDefinitionUri` exactly when the `DefinitionUri` value is absent
or empty; otherwise construction succeeds and stores the value. -/
theorem api_definition_uri_spec (P : Providers) (rid : ResourceIdentifier)
    (stack_list : List Stack) (cb : OnChangeCallback) (r : Resource) :
    P.get_resource_by_id stack_list rid = some r → r.isEmpty = false →
    ((APIGatewayCodeTrigger.init P rid stack_list cb = .error .missingDefinitionUri)
        ↔ pyFalsyStr (getDefinitionUri r) = true) ∧
    (dictGet r "Properties" = none → getDefinitionUri r = none) ∧
    (∀ s : String, getDefinitionUri r = some s → s.isEmpty = false →
      APIGatewayCodeTrigger.init P rid stack_list cb
        = .ok { toCodeResourceTrigger := { _resource := r, _on_code_change := cb }
                _validator := { path := s }
                _definition_file := s }) := by
  intro h hr
  refine ⟨?_, ?_, ?_⟩
  · rcases hd : getDefinitionUri r with _ | s
    · simp [APIGatewayCodeTrigger.init, CodeResourceTrigger.init, h, hr, hd, pyFalsyStr]
    · by_cases hs : s.isEmpty = true
      · simp [APIGatewayCodeTrigger.init, CodeResourceTrigger.init, h, hr, hd, hs, pyFalsyStr]
      · simp [APIGatewayCodeTrigger.init, CodeResourceTrigger.init, h, hr, hd, hs, pyFalsyStr]
  · intro hp
    simp [getDefinitionUri, hp]
  · intro s hd hs
    simp [APIGatewayCodeTrigger.init, CodeResourceTrigger.init, h, hr, hd, hs]

/-- A provider set whose resolved resource has no `Properties` block; used to
evaluate the theorems on explicit inputs. -/
def apiNoPropertiesProviders : Providers :=
  { get_resource_by_id := fun _ _ => some [("Type", PropVal.str "AWS::Serverless::Api")]
    function_provider_get := fun _ _ => none
    layer_provider_get := fun _ _ => none }

/-- A provider set whose resolved resource carries a usable `DefinitionUri`;
used to evaluate the theorems on explicit inputs. -/
def apiGoodDefinitionProviders : Providers :=
  { get_resource_by_id := fun _ _ =>
      some [("Properties", PropVal.dict [("DefinitionUri", PropVal.str "swagger.yaml")])]
    function_provider_get := fun _ _ => none
    layer_provider_get := fun _ _ => none }

/-- C8 witness: the amended theorem evaluated at explicit inputs. -/
theorem api_definition_uri_spec_witness :
    APIGatewayCodeTrigger.init apiNoPropertiesProviders "Api1" [] ⟨0⟩
      = .error .missingDefinitionUri ∧
    getDefinitionUri [("Type", PropVal.str "AWS::Serverless::Api")] = none ∧
    APIGatewayCodeTrigger.init apiGoodDefinitionProviders "Api1" [] ⟨0⟩
      = .ok { toCodeResourceTrigger :=
                { _resource :=
                    [("Properties", PropVal.dict [("DefinitionUri", PropVal.str "swagger.yaml")])]
                  _on_code_change := ⟨0⟩ }
              _validator := { path := "swagger.yaml" }
              _definition_file := "swagger.yaml" } := by
  refine ⟨?_, ?_, ?_⟩
  · exact ((api_definition_uri_spec apiNoPropertiesProviders "Api1" [] ⟨0⟩
      [("Type", PropVal.str "AWS::Serverless::Api")] rfl rfl).1).mpr rfl
  · exact (api_definition_uri_spec apiNoPropertiesProviders "Api1" [] ⟨0⟩
      [("Type", PropVal.str "AWS::Serverless::Api")] rfl rfl).2.1 rfl
  · exact (api_definition_uri_spec apiGoodDefinitionProviders "Api1" [] ⟨0⟩
      [("Properties", PropVal.dict [("DefinitionUri", PropVal.str "swagger.yaml")])]
      rfl rfl).2.2 "swagger.yaml" rfl rfl

/-- C10: the single-file handler never dispatches an event whose subject is a
directory, while the directory handler dispatches every event, directory
events included; both handlers are case-sensitive, and the single-file handler
dispatches no file event whose path differs from the resolved path — in
particular none differing only in letter case. -/
theorem dispatch_directory_and_case (R : PathResolver) (s p : String) (e : Event) :
    (e.is_directory = true →
      (ResourceTrigger.get_single_file_path_handler R s).event_handler.dispatches e = false) ∧
    (ResourceTrigger.get_dir_path_handler R s).event_handler.dispatches e = true ∧
    (ResourceTrigger.get_single_file_path_handler R s).event_handler.case_sensitive = true ∧
    (ResourceTrigger.get_dir_path_handler R s).event_handler.case_sensitive = true ∧
    (p ≠ R.resolve s →
      (ResourceTrigger.get_single_file_path_handler R s).event_handler.dispatches
        { src_path := p, is_directory := false } = false) := by
  refine ⟨?_, ?_, rfl, rfl, ?_⟩
  · intro hd
    simp [ResourceTrigger.get_single_file_path_handler, EventHandler.dispatches, hd]
  · have h : ("*" : String).data = ['*'] := by decide
    simp [ResourceTrigger.get_dir_path_handler, EventHandler.dispatches,
      MatchRule.matchesPath, h, fnmatchChars_star]
  · intro hp
    have hrule := single_file_rule_exact R s p
    have hfalse : (ResourceTrigger.get_single_file_path_handler R s).event_handler.rule.matchesPath
        (ResourceTrigger.get_single_file_path_handler R s).event_handler.case_sensitive p
        = false := by
      rcases hb : (ResourceTrigger.get_single_file_path_handler R s).event_handler.rule.matchesPath
          (ResourceTrigger.get_single_file_path_handler R s).event_handler.case_sensitive p with _ | _
      · rfl
      · exact absurd (hrule.mp hb) hp
    simp only [ResourceTrigger.get_single_file_path_handler] at hfalse ⊢
    simp [EventHandler.dispatches, MatchRule.matchesPath] at hfalse ⊢
    exact hfalse

/-- A concrete path resolver used to evaluate the theorems on explicit inputs:
resolution prefixes a root marker and the parent is that root. -/
def constResolver : PathResolver :=
  { resolve := fun s => "/abs/" ++ s
    parent := fun _ => "/abs" }

/-- C10 witness: the dispatch theorem evaluated at explicit inputs, the file
path differing from the resolved path only in letter case. -/
theorem dispatch_directory_and_case_witness :
    (ResourceTrigger.get_single_file_path_handler constResolver "a.txt").event_handler.dispatches
      { src_path := "/abs/a.txt", is_directory := true } = false ∧
    (ResourceTrigger.get_dir_path_handler constResolver "src").event_handler.dispatches
      { src_path := "/abs/sub", is_directory := true } = true ∧
    (ResourceTrigger.get_single_file_path_handler constResolver "a.txt").event_handler.dispatches
      { src_path := "/abs/A.txt", is_directory := false } = false := by
  refine ⟨?_, ?_, ?_⟩
  · exact (dispatch_directory_and_case constResolver "a.txt" "/abs/A.txt"
      { src_path := "/abs/a.txt", is_directory := true }).1 rfl
  · exact (dispatch_directory_and_case constResolver "src" "/abs/A.txt"
      { src_path := "/abs/sub", is_directory := true }).2.1
  · exact (dispatch_directory_and_case constResolver "a.txt" "/abs/A.txt"
      { src_path := "/abs/A.txt", is_directory := false }).2.2.2.2 (by decide)

end Samcli
